import Mathlib

/-!
Verification of the `chisq_test_wrapper` repository against its
natural-language specification.

The repository consists of a single file, `setup.py`, a declarative
packaging manifest: one import statement and one call to the external
packaging tool's `setup` entry point, with every argument a string
literal or a list of string literals.  We embed the file both as its
raw list of source lines and as a small Python-statement AST, give an
evaluator from the `setup` call's keyword arguments to the declared
metadata record, and prove the structural properties the specification
states about the manifest.
-/

/-- A (fragment of a) Python expression, covering the expression forms
relevant to deciding whether the manifest is purely declarative.  The
manifest itself only uses `strLit` and `strListLit`; the remaining
constructors (`nameRef`, `call`, `binop`) represent the computational
forms whose absence the specification asserts. -/
inductive PyExpr where
  | strLit (s : String)
  | strListLit (elems : List String)
  | nameRef (n : String)
  | call (fn : String) (args : List PyExpr)
  | binop (op : String) (lhs rhs : PyExpr)

/-- An expression is a literal constant: a string literal or a list of
string literals.  Name references, calls and binary operations are not
literals. -/
def PyExpr.isLiteral : PyExpr → Bool
  | .strLit _ => true
  | .strListLit _ => true
  | _ => false

/-- A (fragment of a) Python statement: an import, an expression-level
call with keyword arguments, or one of the statement forms (function
definition, assignment, conditional) that would carry computation or
define an interface.  The manifest only uses the first two. -/
inductive Stmt where
  | importFrom (module : String) (names : List String)
  | callStmt (fn : String) (kwargs : List (String × PyExpr))
  | functionDef (fname : String) (params : List String)
  | assign (target : String) (value : PyExpr)
  | ifStmt (cond : PyExpr)

/-- The keyword arguments of the `setup(...)` call in `src/setup.py`,
lines 4-12, in source order. -/
def setupKwargs : List (String × PyExpr) :=
  [ ("name", .strLit "chisq_test_wrapper"),
    ("version", .strLit ""),
    ("packages", .strListLit ["statsmodels", "scipy"]),
    ("url", .strLit "https://github.com/neuhofmo/chisq_test_wrapper"),
    ("license", .strLit ""),
    ("author", .strLit ""),
    ("author_email", .strLit ""),
    ("description", .strLit "A friendly, automated chi-square test function which takes care of post-hoc tests and multiple comparisons"),
    ("requires", .strListLit ["statsmodels", "scipy"]) ]

/-- The statements of `src/setup.py`: the import of `setup` from
`distutils.core` and the single `setup(...)` call. -/
def setupPy : List Stmt :=
  [ .importFrom "distutils.core" ["setup"],
    .callStmt "setup" setupKwargs ]

/-- The raw source lines of `src/setup.py` (13 lines; the final line
carries no trailing newline).  `\x27` is the single-quote character
used by the Python source for its string literals. -/
def sourceLines : List String :=
  [ "from distutils.core import setup",
    "",
    "setup(",
    "    name=\x27chisq_test_wrapper\x27,",
    "    version=\x27\x27,",
    "    packages=[\x27statsmodels\x27, \x27scipy\x27],",
    "    url=\x27https://github.com/neuhofmo/chisq_test_wrapper\x27,",
    "    license=\x27\x27,",
    "    author=\x27\x27,",
    "    author_email=\x27\x27,",
    "    description=\x27A friendly, automated chi-square test function which takes care of post-hoc tests and multiple comparisons\x27,",
    "    requires=[\x27statsmodels\x27, \x27scipy\x27]",
    ")" ]

/-- The declared metadata record produced by evaluating the `setup`
call: one field per keyword argument of the manifest. -/
structure Metadata where
  name : String
  version : String
  packages : List String
  url : String
  license : String
  author : String
  author_email : String
  description : String
  requires : List String
deriving DecidableEq, Repr

/-- Look up a keyword argument by name in a keyword-argument list. -/
def findKwarg (kwargs : List (String × PyExpr)) (key : String) : Option PyExpr :=
  match kwargs with
  | [] => none
  | kv :: rest => if kv.1 = key then some kv.2 else findKwarg rest key

/-- Evaluate an expression to a string under an environment giving the
values of free names.  Only a string literal or a name reference
yields a string; other forms yield the empty string. -/
def PyExpr.evalAsStr (env : String → String) : PyExpr → String
  | .strLit s => s
  | .nameRef n => env n
  | _ => ""

/-- Evaluate an expression to a list of strings.  Only a list of
string literals yields a list; other forms yield the empty list. -/
def PyExpr.evalAsStrList : PyExpr → List String
  | .strListLit l => l
  | _ => []

/-- The string value of a keyword argument (empty string when the
argument is absent or not string-valued). -/
def getStr (env : String → String) (kwargs : List (String × PyExpr)) (key : String) : String :=
  match findKwarg kwargs key with
  | some e => e.evalAsStr env
  | none => ""

/-- The string-list value of a keyword argument (empty list when the
argument is absent or not a list of strings). -/
def getStrList (kwargs : List (String × PyExpr)) (key : String) : List String :=
  match findKwarg kwargs key with
  | some e => e.evalAsStrList
  | none => []

/-- Evaluate a `setup` call's keyword arguments into the declared
metadata record, under an environment for free names. -/
def evalSetupIn (env : String → String) (kwargs : List (String × PyExpr)) : Metadata :=
  ⟨ getStr env kwargs "name",
    getStr env kwargs "version",
    getStrList kwargs "packages",
    getStr env kwargs "url",
    getStr env kwargs "license",
    getStr env kwargs "author",
    getStr env kwargs "author_email",
    getStr env kwargs "description",
    getStrList kwargs "requires" ⟩

/-- The metadata record declared by `src/setup.py`.  The manifest has
no free names, so the environment is irrelevant. -/
def manifestMetadata : Metadata :=
  evalSetupIn (fun _ => "") setupKwargs

/-- Parse a file: the metadata record of its first `setup(...)` call,
or `none` when the file contains no such call. -/
def parseManifest (file : List Stmt) : Option Metadata :=
  match file with
  | [] => none
  | .callStmt fn kwargs :: rest =>
      if fn = "setup" then some (evalSetupIn (fun _ => "") kwargs)
      else parseManifest rest
  | _ :: rest => parseManifest rest

/-- One declarative build step: re-parse the manifest, replacing
whatever declared metadata was previously recorded. -/
def buildStep (_prev : Option Metadata) : Option Metadata :=
  parseManifest setupPy

/-- A statement is purely declarative: an import, or a call all of
whose keyword arguments are literal constants.  Function definitions,
assignments and conditionals are not declarative. -/
def Stmt.isDeclarative : Stmt → Bool
  | .importFrom _ _ => true
  | .callStmt _ kwargs => kwargs.all (fun kv => kv.2.isLiteral)
  | _ => false

/-- Modules whose import would indicate a command-line surface of the
program's own. -/
def cliModules : List String := ["argparse", "optparse", "sys", "click", "getopt"]

/-- A statement defines an interface of the repository's own (a
command-line surface, a function, state) when it is anything other
than an import of a non-CLI module or a call to the external packaging
tool's `setup` entry point. -/
def Stmt.definesOwnInterface : Stmt → Bool
  | .importFrom m _ => cliModules.contains m
  | .callStmt fn _ => fn ≠ "setup"
  | .functionDef _ _ => true
  | .assign _ _ => true
  | .ifStmt _ => true

/-- `charsLeadWith pat text` holds when `pat` occurs at the start of
`text`. -/
def charsLeadWith : List Char → List Char → Bool
  | [], _ => true
  | _ :: _, [] => false
  | a :: as, b :: bs => a = b && charsLeadWith as bs

/-- `charsHaveSub pat text` holds when `pat` occurs contiguously
somewhere inside `text`. -/
def charsHaveSub : List Char → List Char → Bool
  | pat, [] => charsLeadWith pat []
  | pat, c :: cs => charsLeadWith pat (c :: cs) || charsHaveSub pat cs

/-- `strHasSub s pat` holds when `pat` occurs as a substring of `s`. -/
def strHasSub (s pat : String) : Bool :=
  charsHaveSub pat.toList s.toList

/-- A string carries a version specifier when it contains one of the
comparison operators or parentheses used by dependency version
constraints. -/
def hasVersionSpecifier (s : String) : Bool :=
  strHasSub s "==" || strHasSub s ">=" || strHasSub s "<=" || strHasSub s "!=" ||
  strHasSub s "~=" || strHasSub s ">" || strHasSub s "<" ||
  strHasSub s "(" || strHasSub s ")"

/-- A character permitted in a bare package name: letters, digits,
underscore, hyphen or dot. -/
def isBareNameChar (c : Char) : Bool :=
  c.isAlpha || c.isDigit || c = '_' || c = '-' || c = '.'

/-- A bare package name: non-empty and made only of name characters. -/
def isBareName (s : String) : Bool :=
  !s.isEmpty && s.toList.all isBareNameChar

/-- Claim C1: the manifest declares exactly two dependencies: the
`requires` list has length two and is exactly
`["statsmodels", "scipy"]`. -/
theorem requires_exactly_two :
    manifestMetadata.requires.length = 2 ∧
    manifestMetadata.requires = ["statsmodels", "scipy"] := by
  decide

/-- Claim C4: the manifest's `version`, `license`, `author` and
`author_email` fields are all the empty string, while `name`, `url`
and `description` are non-empty. -/
theorem empty_and_nonempty_fields :
    manifestMetadata.version = "" ∧
    manifestMetadata.license = "" ∧
    manifestMetadata.author = "" ∧
    manifestMetadata.author_email = "" ∧
    manifestMetadata.name ≠ "" ∧
    manifestMetadata.url ≠ "" ∧
    manifestMetadata.description ≠ "" := by
  decide

/-- Claim C5: the `requires` list duplicates the `packages` list: the
two fields are equal as lists, both `["statsmodels", "scipy"]`. -/
theorem requires_duplicates_packages :
    manifestMetadata.requires = manifestMetadata.packages ∧
    manifestMetadata.requires = ["statsmodels", "scipy"] := by
  decide

/-- Claim C8: the `packages` field lists only the two external
dependency names and does not include the project's own name
`chisq_test_wrapper`. -/
theorem packages_omit_own_name :
    manifestMetadata.packages = ["statsmodels", "scipy"] ∧
    "chisq_test_wrapper" ∉ manifestMetadata.packages := by
  decide

/-- Claim C10: every entry of the `requires` list is a bare package
name carrying no version specifier (no `==`, `>=`, `<=`, `!=`, `~=`,
`>`, `<` or parenthesised version). -/
theorem requires_unpinned :
    manifestMetadata.requires.all
      (fun r => isBareName r && !hasVersionSpecifier r) = true := by
  decide

/-- Claim C2, counterexample: the description is not equal character
for character to the stated purpose string beginning with a lowercase
letter; the source writes an uppercase initial `A`. -/
theorem description_not_lowercase_purpose :
    ¬ (manifestMetadata.description =
      "a friendly, automated chi-square test function which takes care of post-hoc tests and multiple comparisons") := by
  decide

/-- Claim C2, amended: the description field is non-empty and equals
the stated purpose string up to the case of its first character: it is
exactly the purpose string with the initial letter capitalised. -/
theorem description_matches_purpose :
    manifestMetadata.description ≠ "" ∧
    manifestMetadata.description =
      "A friendly, automated chi-square test function which takes care of post-hoc tests and multiple comparisons" := by
  decide

/-- Claim C3: re-parsing the manifest is idempotent: the declarative
build step applied twice yields the same declared metadata record as
applying it once, from any prior state, and that record is the
manifest's metadata. -/
theorem buildStep_idempotent :
    (∀ s : Option Metadata, buildStep (buildStep s) = buildStep s) ∧
    buildStep none = some manifestMetadata := by
  exact ⟨fun _ => rfl, rfl⟩

/-- Claim C6: the sole source file has exactly 13 lines, and every
statement of the file is purely declarative (an import or a call whose
arguments are all literal constants), so no line computes a chi-square
statistic, post-hoc test, or multiple-comparison correction. -/
theorem thirteen_lines_no_logic :
    sourceLines.length = 13 ∧
    setupPy.all Stmt.isDeclarative = true := by
  decide

/-- Claim C7: the repository defines no command-line surface of its
own: no statement of the file imports a CLI module, defines a
function, assigns state, branches, or calls anything other than the
external packaging tool's `setup` entry point. -/
theorem no_own_interface :
    setupPy.all (fun s => !(s.definesOwnInterface)) = true := by
  decide

/-- Claim C9: evaluating the manifest is deterministic: every keyword
argument of the `setup` call is a literal constant, and the metadata
record obtained is the same under any two environments. -/
theorem manifest_deterministic :
    setupKwargs.all (fun kv => kv.2.isLiteral) = true ∧
    ∀ env1 env2 : String → String,
      evalSetupIn env1 setupKwargs = evalSetupIn env2 setupKwargs := by
  exact ⟨by decide, fun _ _ => rfl⟩
